import Mathlib

/-!
Verification development for the RapidResolve ticket engine.

Shallow embedding of the Python sources (`models/ticket.py`,
`models/interaction.py`, `services/ai_service.py`,
`services/local_file_service.py`, `app/config.py`, `schemas/ticket.py`).
Python floats are modelled as rationals (ℚ); `None` as `Option.none`;
functions that may raise return `Except`.  Persistence-only columns
(timestamps, ids, free-text metadata) that no verified property reads are
elided from the records.
-/

namespace RapidResolve

/-- `TicketStatus` enum from `models/ticket.py`. -/
inductive TicketStatus where
  | OPEN
  | IN_PROGRESS
  | WAITING_CUSTOMER
  | ESCALATED
  | RESOLVED
  | CLOSED
  deriving DecidableEq, Repr, Fintype

/-- `TicketPriority` enum from `models/ticket.py`. -/
inductive TicketPriority where
  | LOW
  | MEDIUM
  | HIGH
  | URGENT
  deriving DecidableEq, Repr

/-- The `Ticket` row from `models/ticket.py`, restricted to the columns the
derived properties read: `status`, `priority` and `avg_urgency_score`
(a nullable Float). -/
structure Ticket where
  status : TicketStatus
  priority : TicketPriority
  avg_urgency_score : Option ℚ
  deriving DecidableEq, Repr

/-- `Ticket.is_open` from `models/ticket.py` lines 99-102:
`self.status in [OPEN, IN_PROGRESS, WAITING_CUSTOMER]`. -/
def Ticket.is_open (t : Ticket) : Bool :=
  t.status == TicketStatus.OPEN ||
  t.status == TicketStatus.IN_PROGRESS ||
  t.status == TicketStatus.WAITING_CUSTOMER

/-- `Ticket.is_resolved` from `models/ticket.py` lines 104-107:
`self.status in [RESOLVED, CLOSED]`. -/
def Ticket.is_resolved (t : Ticket) : Bool :=
  t.status == TicketStatus.RESOLVED || t.status == TicketStatus.CLOSED

/-- `Ticket.requires_action` from `models/ticket.py` lines 109-116:

    self.status == TicketStatus.ESCALATED or
    self.priority == TicketPriority.URGENT or
    (self.avg_urgency_score and self.avg_urgency_score > 0.8)

The last disjunct uses Python truthiness: `None` and `0.0` are falsy, so
`x and x > 0.8` is falsy for `x = None` and `x = 0.0`, and otherwise is the
boolean `x > 0.8`.  The property's value is the truthiness of the whole
`or` chain. -/
def Ticket.requires_action (t : Ticket) : Bool :=
  (t.status == TicketStatus.ESCALATED) ||
  (t.priority == TicketPriority.URGENT) ||
  (match t.avg_urgency_score with
   | none => false
   | some s => if s = 0 then false else decide (s > (4 : ℚ)/5))

/-- The spec's wording for `requires_action` (§4.5 and §8 of the spec):
true iff `priority == URGENT` or `status == ESCALATED` or
`avg_urgency_score > 0.8`, a null score counting as not exceeding the
threshold. -/
def requires_action_spec (t : Ticket) : Bool :=
  (t.priority == TicketPriority.URGENT) ||
  (t.status == TicketStatus.ESCALATED) ||
  (match t.avg_urgency_score with
   | none => false
   | some s => decide (s > (4 : ℚ)/5))

/-- C1: for every Ticket, `requires_action` is true iff priority is URGENT,
or status is ESCALATED, or the (possibly null) `avg_urgency_score` is
strictly greater than 0.8; a null score never triggers the flag.  In
particular at score exactly 4/5 with non-urgent priority and non-escalated
status the flag is false, and at 81/100 it is true. -/
theorem requires_action_matches_spec (t : Ticket) :
    t.requires_action = requires_action_spec t := by
  unfold Ticket.requires_action requires_action_spec
  cases h : t.avg_urgency_score with
  | none =>
      cases t.status <;> cases t.priority <;>
        simp [Bool.or_comm, Bool.or_left_comm, Bool.or_assoc]
  | some s =>
      by_cases hs : s = 0
      · subst hs
        have h08 : ¬ ((0 : ℚ) > 4/5) := by norm_num
        cases t.status <;> cases t.priority <;>
          simp [h08, Bool.or_comm, Bool.or_left_comm, Bool.or_assoc]
      · cases t.status <;> cases t.priority <;>
          simp [hs, Bool.or_comm, Bool.or_left_comm, Bool.or_assoc]

/-- C9: a Ticket whose status is ESCALATED is neither `is_open` nor
`is_resolved`: the six statuses do not partition into open/resolved. -/
theorem escalated_neither_open_nor_resolved (t : Ticket)
    (h : t.status = TicketStatus.ESCALATED) :
    t.is_open = false ∧ t.is_resolved = false := by
  unfold Ticket.is_open Ticket.is_resolved
  rw [h]
  exact ⟨rfl, rfl⟩

/-- Witness for C9 at a concrete escalated ticket. -/
theorem escalated_neither_open_nor_resolved_witness :
    Ticket.is_open ⟨TicketStatus.ESCALATED, TicketPriority.MEDIUM, none⟩ = false ∧
    Ticket.is_resolved ⟨TicketStatus.ESCALATED, TicketPriority.MEDIUM, none⟩ = false :=
  escalated_neither_open_nor_resolved
    ⟨TicketStatus.ESCALATED, TicketPriority.MEDIUM, none⟩ rfl

/-- A conversation-turn dict as consumed by
`AIService._format_conversation_history` (`services/ai_service.py` lines
451-462): the Python code reads keys `speaker` and `message` with
`dict.get`, so both are modelled as optional. -/
structure ConversationTurn where
  speaker : Option String
  message : Option String
  deriving DecidableEq, Repr

/-- The turn window taken by `_format_conversation_history`: the Python
slice `conversations[-5:]` ("Last 5 turns"), i.e. the final
`min 5 length` elements in their original order. -/
def contextWindow (conversations : List ConversationTurn) : List ConversationTurn :=
  conversations.drop (conversations.length - 5)

/-- `AIService._format_conversation_history` (`services/ai_service.py`
lines 451-462): empty input yields `"No previous conversation"`, otherwise
each windowed turn becomes `"{speaker}: {message[:200]}"` joined by
newlines. -/
def formatConversationHistory (conversations : List ConversationTurn) : String :=
  if conversations.isEmpty then "No previous conversation"
  else
    String.intercalate "\n"
      ((contextWindow conversations).map fun conv =>
        conv.speaker.getD "unknown" ++ ": " ++ (conv.message.getD "").take 200)

/-- A previous solution-attempt dict as consumed by
`AIService._format_previous_attempts`: keys `result` and `content` read
with `dict.get`. -/
structure AttemptDict where
  content : Option String
  result : Option String
  deriving DecidableEq, Repr

/-- `AIService._format_previous_attempts` (`services/ai_service.py` lines
464-475). -/
def formatPreviousAttempts (attempts : List AttemptDict) : String :=
  if attempts.isEmpty then "No previous attempts"
  else
    String.intercalate "\n"
      (attempts.enum.map fun p =>
        toString (p.1 + 1) ++ ". " ++ (p.2.content.getD "").take 100 ++
          "... (Result: " ++ p.2.result.getD "unknown" ++ ")")

/-- The `ticket_info` dict inside a ticket context; all keys read with
`dict.get` and a default. -/
structure TicketInfo where
  title : Option String
  description : Option String
  category : Option String
  product_type : Option String
  deriving DecidableEq, Repr

/-- The `ticket_context` dict passed to `AIService.generate_solution`. -/
structure TicketContext where
  ticket_info : TicketInfo
  conversation_flow : List ConversationTurn
  deriving DecidableEq, Repr

/-- The `conversation_context` dict passed to `AIService.analyze_text`;
the code reads `context_summary` with `dict.get(..., 'None')`. -/
structure ConversationContext where
  context_summary : Option String
  deriving DecidableEq, Repr

/-- Parsed `intent` object of a text analysis. -/
structure Intent where
  type : String
  confidence : ℚ
  deriving DecidableEq, Repr

/-- Parsed `emotion` object of a text analysis. -/
structure Emotion where
  sentiment : String
  urgency_level : String
  deriving DecidableEq, Repr

/-- The JSON dict returned by `AIService.analyze_text`: either the parsed
backend response, or the documented fallback.  `entities` is modelled as a
key-value list; `error` is present only on the fallback path. -/
structure TextAnalysis where
  intent : Intent
  entities : List (String × String)
  emotion : Emotion
  urgency_score : ℚ
  error : Option String
  deriving DecidableEq, Repr

/-- The user prompt built by `AIService.analyze_text`
(`services/ai_service.py` lines 211-214). -/
def analyzeTextPrompt (text : String) (conversation_context : Option ConversationContext) :
    String :=
  "Analyze this customer message:\n\n" ++ text ++
  match conversation_context with
  | none => ""
  | some c => "\n\nPrevious context: " ++ c.context_summary.getD "None"

/-- `AIService.analyze_text` (`services/ai_service.py` lines 186-239).
The OpenAI chat call plus `json.loads` is the fallible backend, modelled
as a function from the built prompt to `Except`; the whole `try` body is
in its scope.  On success the parsed response is returned unchanged (no
clamping or post-processing); on any failure the neutral default dict is
returned: `intent=request_help@0.5`, empty entities, neutral/medium
emotion, `urgency_score=0.5`, plus the error string. -/
def analyze_text (text : String) (conversation_context : Option ConversationContext)
    (backend : String → Except String TextAnalysis) : TextAnalysis :=
  match backend (analyzeTextPrompt text conversation_context) with
  | Except.ok result => result
  | Except.error e =>
      { intent := { type := "request_help", confidence := 1/2 }
        entities := []
        emotion := { sentiment := "neutral", urgency_level := "medium" }
        urgency_score := 1/2
        error := some e }

/-- The JSON dict returned by `AIService.generate_solution`: either the
parsed backend response or the documented fallback. -/
structure Solution where
  content : String
  steps : List String
  confidence : ℚ
  estimated_difficulty : String
  requires_escalation : Bool
  escalation_reason : Option String
  prerequisites : List String
  error : Option String
  deriving DecidableEq, Repr

/-- The user prompt built by `AIService.generate_solution`
(`services/ai_service.py` lines 322-339); leading indentation of the
Python triple-quoted literal is elided. -/
def buildSolutionPrompt (ticket_context : TicketContext)
    (previous_attempts : List AttemptDict) : String :=
  "Issue: " ++ ticket_context.ticket_info.title.getD "Unknown issue" ++
  "\nDescription: " ++ ticket_context.ticket_info.description.getD "No description" ++
  "\nCategory: " ++ ticket_context.ticket_info.category.getD "general" ++
  "\nProduct: " ++ ticket_context.ticket_info.product_type.getD "unknown" ++
  "\n\nConversation history:\n" ++
  formatConversationHistory ticket_context.conversation_flow ++
  "\n\nPrevious solution attempts:\n" ++
  formatPreviousAttempts previous_attempts ++
  "\n\nGenerate the next best solution."

/-- `AIService.generate_solution` (`services/ai_service.py` lines
292-367).  The OpenAI call plus `json.loads` is the fallible backend; on
failure the documented safe fallback Solution is returned instead of
propagating the exception. -/
def generate_solution (ticket_context : TicketContext)
    (previous_attempts : List AttemptDict)
    (backend : String → Except String Solution) : Solution :=
  match backend (buildSolutionPrompt ticket_context previous_attempts) with
  | Except.ok result => result
  | Except.error e =>
      { content := "I apologize, but I'm having difficulty generating a solution. Let me escalate this to a human agent."
        steps := ["Contact human support for assistance"]
        confidence := 1/10
        estimated_difficulty := "unknown"
        requires_escalation := true
        escalation_reason := some "AI processing error"
        prerequisites := []
        error := some e }

/-- `max_context_turns` default from `app/config.py` line 57. -/
def max_context_turns_default : ℕ := 20

/-- 25 concrete conversation turns, numbered 1..25 oldest-first. -/
def turns25 : List ConversationTurn :=
  (List.range 25).map fun i =>
    { speaker := some "customer", message := some ("turn " ++ toString (i + 1)) }

/-- C2 counterexample: with 25 turns and the configured window of 20, the
claim says the windowed context is exactly the last 20 turns
(`turns25.drop 5`), but the code's window (`conversations[-5:]`) holds
only the last 5 turns. -/
theorem contextWindow_not_last_twenty :
    contextWindow turns25 ≠
      turns25.drop (turns25.length - max_context_turns_default) := by
  intro h
  have h1 : (contextWindow turns25).length = 5 := by
    simp [contextWindow, turns25]
  rw [h] at h1
  have h2 : (turns25.drop (turns25.length - max_context_turns_default)).length = 20 := by
    simp [turns25, max_context_turns_default]
  rw [h2] at h1
  exact absurd h1 (by decide)

/-- C2 amended: the conversation-turn context included in a prompt is the
window `conversations[-5:]`: at most 5 turns (a hard-coded bound — the
configured `max_context_turns` is not consulted), exactly the most recent
`min length 5` turns, and a contiguous suffix of the turn list, so it is
ordered oldest to newest. -/
theorem contextWindow_last_five (conversations : List ConversationTurn) :
    (contextWindow conversations).length = min conversations.length 5 ∧
    contextWindow conversations <:+ conversations := by
  constructor
  · unfold contextWindow
    rw [List.length_drop]
    omega
  · exact List.drop_suffix _ _

/-- C8: if the backend call inside `analyze_text` raises, the exception is
not propagated; the returned analysis is the neutral default with intent
`request_help` at confidence 0.5, urgency score 0.5, and neutral
sentiment. -/
theorem analyze_text_failure_neutral_default (text : String)
    (conversation_context : Option ConversationContext)
    (backend : String → Except String TextAnalysis) (e : String)
    (h : backend (analyzeTextPrompt text conversation_context) = Except.error e) :
    (analyze_text text conversation_context backend).intent =
        { type := "request_help", confidence := 1/2 } ∧
    (analyze_text text conversation_context backend).urgency_score = 1/2 ∧
    (analyze_text text conversation_context backend).emotion.sentiment = "neutral" := by
  unfold analyze_text
  rw [h]
  exact ⟨rfl, rfl, rfl⟩

/-- Witness for C8 at a concrete failing backend. -/
theorem analyze_text_failure_neutral_default_witness :
    ((fun _ : String => (Except.error "boom" : Except String TextAnalysis))
        (analyzeTextPrompt "my laptop is on fire" none) = Except.error "boom") ∧
    ((analyze_text "my laptop is on fire" none
        fun _ => Except.error "boom").intent =
          { type := "request_help", confidence := 1/2 } ∧
     (analyze_text "my laptop is on fire" none
        fun _ => Except.error "boom").urgency_score = 1/2 ∧
     (analyze_text "my laptop is on fire" none
        fun _ => Except.error "boom").emotion.sentiment = "neutral") :=
  ⟨rfl, analyze_text_failure_neutral_default "my laptop is on fire" none
    (fun _ => Except.error "boom") "boom" rfl⟩

/-- A syntactically valid backend response whose urgency score is 3/2,
outside [0,1]. -/
def overUnitAnalysis : TextAnalysis :=
  { intent := { type := "report_issue", confidence := 9/10 }
    entities := []
    emotion := { sentiment := "negative", urgency_level := "high" }
    urgency_score := 3/2
    error := none }

/-- C6 counterexample: `analyze_text` does not clamp: with a backend that
returns urgency score 3/2, `analyze_text` returns 3/2, outside [0,1]. -/
theorem analyze_text_urgency_not_clamped :
    ¬ ((analyze_text "x" none fun _ => Except.ok overUnitAnalysis).urgency_score ≤ 1) := by
  have h : (analyze_text "x" none fun _ => Except.ok overUnitAnalysis) =
      overUnitAnalysis := rfl
  rw [h]
  norm_num [overUnitAnalysis]

/-- C6 amended: `analyze_text` never clamps the urgency score: on backend
failure it returns 0.5 (which lies in [0,1]), and on success it passes the
backend's urgency score through unchanged, so the result lies in [0,1]
exactly when the backend's value does. -/
theorem analyze_text_urgency_passthrough (text : String)
    (conversation_context : Option ConversationContext)
    (backend : String → Except String TextAnalysis) :
    (analyze_text text conversation_context backend).urgency_score =
      match backend (analyzeTextPrompt text conversation_context) with
      | Except.ok r => r.urgency_score
      | Except.error _ => 1/2 := by
  unfold analyze_text
  cases backend (analyzeTextPrompt text conversation_context) <;> rfl

/-- C3: if the backend call inside `generate_solution` raises, the
exception is not propagated; the returned Solution has confidence 0.1,
`requires_escalation = true`, and escalation reason
`"AI processing error"`. -/
theorem generate_solution_failure_fallback (ticket_context : TicketContext)
    (previous_attempts : List AttemptDict)
    (backend : String → Except String Solution) (e : String)
    (h : backend (buildSolutionPrompt ticket_context previous_attempts) =
        Except.error e) :
    (generate_solution ticket_context previous_attempts backend).confidence = 1/10 ∧
    (generate_solution ticket_context previous_attempts backend).requires_escalation
        = true ∧
    (generate_solution ticket_context previous_attempts backend).escalation_reason
        = some "AI processing error" := by
  unfold generate_solution
  rw [h]
  exact ⟨rfl, rfl, rfl⟩

/-- An empty ticket context used to instantiate the failure theorems. -/
def emptyTicketContext : TicketContext :=
  { ticket_info := { title := none, description := none, category := none,
                     product_type := none }
    conversation_flow := [] }

/-- Witness for C3 at a concrete failing backend. -/
theorem generate_solution_failure_fallback_witness :
    ((fun _ : String => (Except.error "boom" : Except String Solution))
        (buildSolutionPrompt emptyTicketContext []) = Except.error "boom") ∧
    ((generate_solution emptyTicketContext []
        fun _ => Except.error "boom").confidence = 1/10 ∧
     (generate_solution emptyTicketContext []
        fun _ => Except.error "boom").requires_escalation = true ∧
     (generate_solution emptyTicketContext []
        fun _ => Except.error "boom").escalation_reason =
          some "AI processing error") :=
  ⟨rfl, generate_solution_failure_fallback emptyTicketContext []
    (fun _ => Except.error "boom") "boom" rfl⟩

/-- The `Interaction` row from `models/interaction.py`, restricted to the
columns the aggregation invariants read: `sequence_number` (line 51),
nullable `urgency_score` (line 62) and `is_processed` (line 76). -/
structure InteractionRec where
  sequence_number : ℕ
  urgency_score : Option ℚ
  is_processed : Bool
  deriving DecidableEq, Repr

/-- Per-ticket aggregation state: the interaction list (kept in the
relationship's `order_by="Interaction.sequence_number"` order,
`models/ticket.py` lines 76-81) and the `avg_urgency_score` column. -/
structure TicketAgg where
  interactions : List InteractionRec
  avg_urgency_score : Option ℚ
  deriving DecidableEq, Repr

/-- A freshly created ticket: no interactions, null average. -/
def emptyTicketAgg : TicketAgg := { interactions := [], avg_urgency_score := none }

/-- Modelled from the spec: the Interaction Processor's sequence-number
assignment (§4.3, "assign next sequence_number = max(existing)+1") is not
under `src/` (only the column and relationship declarations are); an
empty ticket yields 1 (the numbering is 1-based, §3). -/
def nextSequenceNumber (ts : TicketAgg) : ℕ :=
  (ts.interactions.map InteractionRec.sequence_number).foldr max 0 + 1

/-- Modelled from the spec: the Context Aggregator's recomputation of
`avg_urgency_score` (§4.4, "the mean over all Interaction.urgency_score
that are non-null", null when no interaction has a score) is not under
`src/`. -/
def recomputeAvg (interactions : List InteractionRec) : Option ℚ :=
  let scores := interactions.filterMap InteractionRec.urgency_score
  if scores.length = 0 then none else some (scores.sum / (scores.length : ℚ))

/-- Modelled from the spec: processing one interaction (§4.3/§4.4) —
append the new interaction with the next sequence number and the AI
urgency score, mark it processed, and recompute the ticket's average;
the processing code itself is not under `src/`. -/
def processInteraction (ts : TicketAgg) (urgency : Option ℚ) : TicketAgg :=
  let newInteractions := ts.interactions ++
    [{ sequence_number := nextSequenceNumber ts, urgency_score := urgency,
       is_processed := true }]
  { interactions := newInteractions
    avg_urgency_score := recomputeAvg newInteractions }

/-- Folding `max` over `[a, a+1, ..., a+n-1]` starting from `b` gives
`max b (a+n-1)` (and `b` for `n = 0`). -/
theorem foldr_max_range' (n : ℕ) :
    ∀ b : ℕ, (List.range' 1 n).foldr max b = max b n := by
  induction n with
  | zero => intro b; simp
  | succ k ih =>
      intro b
      rw [List.range'_concat, List.foldr_append]
      simp only [List.foldr]
      rw [ih]
      omega

/-- Appending the next element to a gap-free 1-based range extends it. -/
theorem range'_snoc (n : ℕ) :
    List.range' 1 n ++ [n + 1] = List.range' 1 (n + 1) := by
  rw [List.range'_concat]
  simp [Nat.add_comm]

/-- The sequence numbers of any state reachable from `ts` are gap-free
whenever those of `ts` are. -/
theorem seqs_after_fold (inputs : List (Option ℚ)) :
    ∀ ts : TicketAgg,
      ts.interactions.map InteractionRec.sequence_number =
        List.range' 1 ts.interactions.length →
      (inputs.foldl processInteraction ts).interactions.map
          InteractionRec.sequence_number =
        List.range' 1 (ts.interactions.length + inputs.length) := by
  induction inputs with
  | nil => intro ts h; simpa using h
  | cons u rest ih =>
      intro ts h
      rw [List.foldl_cons]
      have hnext : nextSequenceNumber ts = ts.interactions.length + 1 := by
        unfold nextSequenceNumber
        rw [h, foldr_max_range']
        omega
      have hmap : (processInteraction ts u).interactions.map
          InteractionRec.sequence_number =
          List.range' 1 ((processInteraction ts u).interactions.length) := by
        unfold processInteraction
        simp only [List.map_append, List.length_append, List.map_cons,
          List.map_nil, List.length_cons, List.length_nil, Nat.zero_add]
        rw [h, hnext, range'_snoc]
      have hlen : (processInteraction ts u).interactions.length =
          ts.interactions.length + 1 := by
        unfold processInteraction
        simp
      have hrec := ih (processInteraction ts u) hmap
      rw [hlen] at hrec
      rw [hrec]
      congr 1
      simp only [List.length_cons]
      omega

/-- C4: starting from a fresh ticket, after processing N interactions the
list of `sequence_number` values is exactly `[1, 2, ..., N]` — no gaps,
no duplicates, ascending — each new interaction having been assigned
`max(existing) + 1`. -/
theorem sequence_numbers_exactly_one_to_n (inputs : List (Option ℚ)) :
    (inputs.foldl processInteraction emptyTicketAgg).interactions.map
        InteractionRec.sequence_number =
      List.range' 1 inputs.length := by
  have h := seqs_after_fold inputs emptyTicketAgg (by simp [emptyTicketAgg])
  simpa [emptyTicketAgg] using h

/-- C5: starting from a fresh ticket, after each processed interaction the
ticket's `avg_urgency_score` equals the mean of the non-null
`urgency_score` values over all its interactions (and is null when no
interaction has a non-null score). -/
theorem avg_urgency_is_mean_of_scores (inputs : List (Option ℚ)) :
    (inputs.foldl processInteraction emptyTicketAgg).avg_urgency_score =
      recomputeAvg (inputs.foldl processInteraction emptyTicketAgg).interactions := by
  induction inputs using List.reverseRecOn with
  | nil => rfl
  | append_singleton xs x ih =>
      rw [List.foldl_concat]
      rfl

/-- Modelled from the spec: the status state machine of §4.5.  No
transition-enforcement code is under `src/` — `TicketUpdate` in
`schemas/ticket.py` lines 36-52 declares the mutable optional `status`
field with no validator, and the route handlers are absent — so the
machine is taken from the spec's words: `OPEN → IN_PROGRESS →
{WAITING_CUSTOMER, ESCALATED, RESOLVED} → CLOSED`, with
`WAITING_CUSTOMER ↔ IN_PROGRESS`, `ESCALATED` reachable from any open
state, and `CLOSED` terminal and reachable only from `RESOLVED` or
`ESCALATED`. -/
def allowedTransition : TicketStatus → TicketStatus → Bool
  | TicketStatus.OPEN, TicketStatus.IN_PROGRESS => true
  | TicketStatus.OPEN, TicketStatus.ESCALATED => true
  | TicketStatus.IN_PROGRESS, TicketStatus.WAITING_CUSTOMER => true
  | TicketStatus.IN_PROGRESS, TicketStatus.ESCALATED => true
  | TicketStatus.IN_PROGRESS, TicketStatus.RESOLVED => true
  | TicketStatus.WAITING_CUSTOMER, TicketStatus.IN_PROGRESS => true
  | TicketStatus.WAITING_CUSTOMER, TicketStatus.ESCALATED => true
  | TicketStatus.RESOLVED, TicketStatus.CLOSED => true
  | TicketStatus.ESCALATED, TicketStatus.CLOSED => true
  | _, _ => false

/-- Modelled from the spec: §7(d) — a mutation attempting a transition
outside the machine is rejected before any state change, so the status is
left unchanged; an allowed transition installs the requested status. -/
def applyStatusUpdate (s target : TicketStatus) : TicketStatus :=
  if allowedTransition s target then target else s

/-- C7: any status update that actually changes the state follows an edge
of the §4.5 machine; a ticket never leaves CLOSED; CLOSED is entered only
from RESOLVED or ESCALATED; and ESCALATED is an allowed target from every
open state (OPEN, IN_PROGRESS, WAITING_CUSTOMER).  Updates outside the
machine leave the status unchanged by definition of the update. -/
theorem status_changes_follow_machine (s t : TicketStatus)
    (h : applyStatusUpdate s t ≠ s) :
    allowedTransition s t = true ∧
    s ≠ TicketStatus.CLOSED ∧
    (applyStatusUpdate s t = TicketStatus.CLOSED →
      s = TicketStatus.RESOLVED ∨ s = TicketStatus.ESCALATED) ∧
    ((s = TicketStatus.OPEN ∨ s = TicketStatus.IN_PROGRESS ∨
        s = TicketStatus.WAITING_CUSTOMER) →
      allowedTransition s TicketStatus.ESCALATED = true) := by
  revert h
  revert t
  revert s
  decide

/-- Witness for C7 at the concrete transition RESOLVED → CLOSED. -/
theorem status_changes_follow_machine_witness :
    (applyStatusUpdate TicketStatus.RESOLVED TicketStatus.CLOSED ≠
        TicketStatus.RESOLVED) ∧
    (allowedTransition TicketStatus.RESOLVED TicketStatus.CLOSED = true ∧
     TicketStatus.RESOLVED ≠ TicketStatus.CLOSED ∧
     (applyStatusUpdate TicketStatus.RESOLVED TicketStatus.CLOSED =
         TicketStatus.CLOSED →
       TicketStatus.RESOLVED = TicketStatus.RESOLVED ∨
       TicketStatus.RESOLVED = TicketStatus.ESCALATED) ∧
     ((TicketStatus.RESOLVED = TicketStatus.OPEN ∨
         TicketStatus.RESOLVED = TicketStatus.IN_PROGRESS ∨
         TicketStatus.RESOLVED = TicketStatus.WAITING_CUSTOMER) →
       allowedTransition TicketStatus.RESOLVED TicketStatus.ESCALATED = true)) :=
  ⟨by decide,
   status_changes_follow_machine TicketStatus.RESOLVED TicketStatus.CLOSED
     (by decide)⟩

/-- A Python runtime error, as far as the embedded code distinguishes
them. -/
inductive PyErr where
  | attributeError (name : String)
  | typeError
  deriving DecidableEq, Repr

/-- A value held by one field of `Settings`. -/
inductive SettingsVal where
  | vstr (s : String)
  | vint (n : Int)
  | vbool (b : Bool)
  | vlist (l : List String)
  | vrat (q : ℚ)
  | vnone
  deriving DecidableEq, Repr

/-- The `Settings` class from `app/config.py` lines 5-62, field for field
(defaults included; `database_url`, `openai_api_key` and the four
Cloudflare R2 fields have no default and must come from the
environment).  It defines no `storage_path` field. -/
structure Settings where
  app_name : String := "RapidResolve"
  app_version : String := "0.1.0"
  debug : Bool := false
  database_url : String
  chromadb_host : String := "localhost"
  chromadb_port : Int := 8001
  openai_api_key : String
  openai_model : String := "gpt-4-turbo"
  openai_vision_model : String := "gpt-4-turbo"
  anthropic_api_key : Option String := none
  anthropic_model : String := "claude-3-5-sonnet-20241022"
  cloudflare_r2_endpoint : String
  cloudflare_r2_access_key : String
  cloudflare_r2_secret_key : String
  cloudflare_r2_bucket : String
  max_file_size_mb : Int := 50
  allowed_image_types : List String := [".jpg", ".jpeg", ".png", ".gif", ".webp"]
  allowed_audio_types : List String := [".mp3", ".wav", ".m4a", ".ogg"]
  allowed_document_types : List String := [".pdf", ".txt", ".doc", ".docx"]
  api_v1_prefix : String := "/api/v1"
  cors_origins : List String := ["http://localhost:3000", "http://localhost:8000"]
  whisper_model : String := "base"
  max_context_turns : Int := 20
  embedding_model : String := "text-embedding-3-small"
  default_ticket_priority : String := "medium"
  auto_escalate_threshold : ℚ := 4/5
  deriving DecidableEq, Repr

/-- Python attribute lookup on a `Settings` instance: each defined field
(and the `r2_endpoint_url` property) resolves to its value; any other
name raises `AttributeError`. -/
def Settings.getattr (s : Settings) : String → Except PyErr SettingsVal
  | "app_name" => Except.ok (SettingsVal.vstr s.app_name)
  | "app_version" => Except.ok (SettingsVal.vstr s.app_version)
  | "debug" => Except.ok (SettingsVal.vbool s.debug)
  | "database_url" => Except.ok (SettingsVal.vstr s.database_url)
  | "chromadb_host" => Except.ok (SettingsVal.vstr s.chromadb_host)
  | "chromadb_port" => Except.ok (SettingsVal.vint s.chromadb_port)
  | "openai_api_key" => Except.ok (SettingsVal.vstr s.openai_api_key)
  | "openai_model" => Except.ok (SettingsVal.vstr s.openai_model)
  | "openai_vision_model" => Except.ok (SettingsVal.vstr s.openai_vision_model)
  | "anthropic_api_key" =>
      Except.ok (match s.anthropic_api_key with
        | some k => SettingsVal.vstr k
        | none => SettingsVal.vnone)
  | "anthropic_model" => Except.ok (SettingsVal.vstr s.anthropic_model)
  | "cloudflare_r2_endpoint" => Except.ok (SettingsVal.vstr s.cloudflare_r2_endpoint)
  | "cloudflare_r2_access_key" => Except.ok (SettingsVal.vstr s.cloudflare_r2_access_key)
  | "cloudflare_r2_secret_key" => Except.ok (SettingsVal.vstr s.cloudflare_r2_secret_key)
  | "cloudflare_r2_bucket" => Except.ok (SettingsVal.vstr s.cloudflare_r2_bucket)
  | "max_file_size_mb" => Except.ok (SettingsVal.vint s.max_file_size_mb)
  | "allowed_image_types" => Except.ok (SettingsVal.vlist s.allowed_image_types)
  | "allowed_audio_types" => Except.ok (SettingsVal.vlist s.allowed_audio_types)
  | "allowed_document_types" => Except.ok (SettingsVal.vlist s.allowed_document_types)
  | "api_v1_prefix" => Except.ok (SettingsVal.vstr ( Settings.api_v1_prefix s))
  | "cors_origins" => Except.ok (SettingsVal.vlist s.cors_origins)
  | "whisper_model" => Except.ok (SettingsVal.vstr s.whisper_model)
  | "max_context_turns" => Except.ok (SettingsVal.vint s.max_context_turns)
  | "embedding_model" => Except.ok (SettingsVal.vstr s.embedding_model)
  | "default_ticket_priority" => Except.ok (SettingsVal.vstr s.default_ticket_priority)
  | "auto_escalate_threshold" => Except.ok (SettingsVal.vrat s.auto_escalate_threshold)
  | "r2_endpoint_url" =>
      Except.ok (SettingsVal.vstr ("https://" ++ s.cloudflare_r2_endpoint))
  | a => Except.error (PyErr.attributeError a)

/-- The `LocalFileService` object state after `__init__` succeeds
(`services/local_file_service.py` lines 22-39); the `mkdir` side effects
are external and elided. -/
structure LocalFileService where
  storage_path : String
  metadata_path : String
  deriving DecidableEq, Repr

/-- `LocalFileService.__init__` (`services/local_file_service.py` lines
22-39): when no explicit `storage_path` is passed it evaluates
`settings.storage_path`, whose failure (or any other exception) is the
constructor's failure. -/
def LocalFileService.init (storage_path : Option String) (s : Settings) :
    Except PyErr LocalFileService :=
  match storage_path with
  | some p => Except.ok { storage_path := p, metadata_path := p ++ "/.metadata" }
  | none =>
      match s.getattr "storage_path" with
      | Except.error e => Except.error e
      | Except.ok (SettingsVal.vstr p) =>
          Except.ok { storage_path := p, metadata_path := p ++ "/.metadata" }
      | Except.ok _ => Except.error PyErr.typeError

/-- `get_file_service` (`services/local_file_service.py` lines 487-499):
the module-level singleton constructs `LocalFileService()` with no
argument. -/
def get_file_service (s : Settings) : Except PyErr LocalFileService :=
  LocalFileService.init none s

/-- C10: constructing `LocalFileService` without an explicit
`storage_path` — as the `get_file_service()` singleton does — always
raises `AttributeError`, whatever the configuration values are, because
`Settings` defines no `storage_path` field; so the local-disk backend is
never constructible from configuration alone. -/
theorem get_file_service_always_fails (s : Settings) :
    get_file_service s = Except.error (PyErr.attributeError "storage_path") := rfl

end RapidResolve
